import Mathlib

/-!
# Verification of the Stylus metering and host-call bridge

A shallow embedding of the gas/ink metering and host-call dispatcher of the
Stylus execution sandbox (crates `stylus`, `jit`, `wasm-libraries/user-host`),
together with proofs of the spec's testable properties.

Machine integers (`u32`, `u64`) are embedded as `Nat`; the source's explicit
saturating operations are translated with explicit clamps at `2^64 - 1`.
Pricing constants are policy inputs of the chain (spec §9) and appear as
parameters. Stateful Rust methods become explicit state-passing functions
returning the updated state alongside an `Except` result, mirroring the
source's early-return (`?`) control flow.
-/

deriving instance DecidableEq for Except

namespace Stylus

/-- Maximum value of a `u64`, the saturation bound used by `saturating_mul`. -/
def U64_MAX : Nat := 2 ^ 64 - 1

/-- Outcome kinds reported to the embedding host (`UserOutcomeKind` in
`arbutil::evm::user`): the five terminal statuses of a program run. -/
inductive UserOutcomeKind where
  | Success
  | Revert
  | Failure
  | OutOfInk
  | OutOfStack
deriving DecidableEq, Repr

/-- Modelled from the spec: the prover crate's `MachineMeter` (the `prover`
crate is not under src; §4.1: `ink_left()` returns either `Ready(n)` or
`Exhausted`). -/
inductive MachineMeter where
  | Ready (ink : Nat)
  | Exhausted
deriving DecidableEq, Repr

/-- Modelled from the spec: the `u64` view of a `MachineMeter` (the prover
crate's `From<MachineMeter> for u64` is not under src); an exhausted meter
carries no ink, so conversion to a raw ink amount yields zero. -/
def MachineMeter.ink : MachineMeter → Nat
  | .Ready n => n
  | .Exhausted => 0

/-- The two metering globals of an instrumented module (`MeterData` in
stylus `env.rs`): the amount of ink left (a `u64` global) and the exhaustion
status flag (a `u32` global, zero meaning ready). -/
structure MeterData where
  ink_left : Nat
  ink_status : Nat
deriving DecidableEq, Repr

/-- Host-call failure modes (`Escape` in stylus `env.rs`): memory-bounds
violations, internal errors, logic errors, and ink exhaustion. -/
inductive Escape where
  | Memory
  | Internal (msg : String)
  | Logical (msg : String)
  | OutOfInk
deriving DecidableEq, Repr

/-- Reading the meter through the globals (`impl MeteredMachine for
HostioInfo`, stylus `env.rs` lines 198-211): a zero status flag means
`Ready(ink_left)`, any nonzero flag means `Exhausted`. -/
def HostioInfo.ink_left (m : MeterData) : MachineMeter :=
  if m.ink_status = 0 then .Ready m.ink_left else .Exhausted

/-- Writing the meter through the globals (`set_ink`, stylus `env.rs` lines
213-218): stores the ink amount and clears the status flag. -/
def HostioInfo.set_ink (_m : MeterData) (ink : Nat) : MeterData :=
  { ink_left := ink, ink_status := 0 }

/-- Charging ink (`HostioInfo::buy_ink`, stylus `env.rs` lines 111-120):
fails with `OutOfInk` when the meter is exhausted or holds less than the
requested amount, otherwise subtracts. The early returns leave the meter
globals untouched. -/
def HostioInfo.buy_ink (ink : Nat) (m : MeterData) : MeterData × Except Escape Unit :=
  match HostioInfo.ink_left m with
  | .Exhausted => (m, .error .OutOfInk)
  | .Ready ink_left =>
    if ink_left < ink then (m, .error .OutOfInk)
    else (HostioInfo.set_ink m (ink_left - ink), .ok ())

/-- Modelled from the spec: the pricing parameters (`PricingParams` in the
prover crate's `config.rs`, not under src). §3: gas and ink are related by a
fixed-point price ratio `ink_price` set once per run; `hostio_ink` is the
fixed per-hostio-call overhead (§4.1). -/
structure PricingParams where
  ink_price : Nat
  hostio_ink : Nat
deriving DecidableEq, Repr

/-- Modelled from the spec: gas-to-ink conversion (prover `config.rs`, not
under src). Multiplies by the price ratio, saturating at `u64::MAX` so a
large gas budget cannot wrap around to a small ink budget. -/
def PricingParams.gas_to_ink (p : PricingParams) (gas : Nat) : Nat :=
  min (gas * p.ink_price) U64_MAX

/-- Modelled from the spec: ink-to-gas conversion (prover `config.rs`, not
under src). Divides by the price ratio, rounding down so that rounding never
creates gas (§8). The price is nonzero in any valid configuration. -/
def PricingParams.ink_to_gas (p : PricingParams) (ink : Nat) : Nat :=
  ink / p.ink_price

/-- Charging gas (`HostioInfo::buy_gas`, stylus `env.rs` lines 122-125):
converts via `gas_to_ink` and charges the ink. -/
def HostioInfo.buy_gas (p : PricingParams) (gas : Nat) (m : MeterData) :
    MeterData × Except Escape Unit :=
  HostioInfo.buy_ink (p.gas_to_ink gas) m

/-- Checking gas sufficiency without charging (`HostioInfo::require_gas`,
stylus `env.rs` lines 128-137). -/
def HostioInfo.require_gas (p : PricingParams) (gas : Nat) (m : MeterData) :
    MeterData × Except Escape Unit :=
  let ink := p.gas_to_ink gas
  match HostioInfo.ink_left m with
  | .Exhausted => (m, .error .OutOfInk)
  | .Ready ink_left =>
    if ink_left < ink then (m, .error .OutOfInk) else (m, .ok ())

/-- The remaining gas (`HostioInfo::gas_left`, stylus `env.rs` lines
106-109): the meter's ink viewed through `ink_to_gas`. -/
def HostioInfo.gas_left (p : PricingParams) (m : MeterData) : Nat :=
  p.ink_to_gas (HostioInfo.ink_left m).ink

/-- Word-granular size of a byte count (the `evm_words` closure inside
`pay_for_evm_copy`, stylus `env.rs` line 140): `count.saturating_mul(31) / 32`. -/
def evm_words (count : Nat) : Nat :=
  min (count * 31) U64_MAX / 32

/-- The per-call entry step (`WasmEnv::start`, stylus `env.rs` lines 73-78):
charges the fixed hostio overhead before the host function does any other
work. -/
def WasmEnv.start (p : PricingParams) (m : MeterData) : MeterData × Except Escape Unit :=
  HostioInfo.buy_ink p.hostio_ink m

/-- Bounds-checked slice read from the program's linear memory
(`HostioInfo::read_slice`, stylus `env.rs` lines 167-171). Modelled from the
spec for the underlying view: the wasmer `MemoryView::read` it delegates to
is external, and §4.2 defines the contract: the read fails with a
memory-bounds error if `[ptr, ptr+len)` exceeds the allocated region, and no
partial data is returned. -/
def HostioInfo.read_slice (mem : List Nat) (ptr len : Nat) : Option (List Nat) :=
  if ptr + len ≤ mem.length then some ((mem.drop ptr).take len) else none

/-- Fixed-width 32-byte read (`HostioInfo::read_bytes32`, stylus `env.rs`
lines 178-181): a `read_slice` of width 32. -/
def HostioInfo.read_bytes32 (mem : List Nat) (ptr : Nat) : Option (List Nat) :=
  HostioInfo.read_slice mem ptr 32

/-- Fixed-width 20-byte read (`HostioInfo::read_bytes20`, stylus `env.rs`
lines 173-176): a `read_slice` of width 20. -/
def HostioInfo.read_bytes20 (mem : List Nat) (ptr : Nat) : Option (List Nat) :=
  HostioInfo.read_slice mem ptr 20

/-- Bounds check of a 4-byte scalar write (`HostioInfo::write_u32`, stylus
`env.rs` lines 155-159). The written contents are not tracked by this
development; only the success or failure of the write matters to the claims. -/
def HostioInfo.write_u32_ok (mem : List Nat) (ptr : Nat) : Bool :=
  ptr + 4 ≤ mem.length

/-- Modelled from the spec: charging ink on the replay dispatcher's meter
(the prover crate's `MeteredMachine::buy_ink`, not under src). §4.1:
`buy_ink(amount)` subtracts `amount` from `ink_left` if `ink_left >= amount`
and status is ready; otherwise fails with `OutOfInk` and leaves state
exhausted. -/
def Meter.buy_ink (ink : Nat) (m : MachineMeter) : MachineMeter × Except Escape Unit :=
  match m with
  | .Exhausted => (.Exhausted, .error .OutOfInk)
  | .Ready ink_left =>
    if ink_left < ink then (.Exhausted, .error .OutOfInk)
    else (.Ready (ink_left - ink), .ok ())

/-- Modelled from the spec: charging gas on the replay dispatcher's meter
(the prover crate's `GasMeteredMachine::buy_gas`, not under src). Converts
via `gas_to_ink` and charges the ink. -/
def Meter.buy_gas (p : PricingParams) (gas : Nat) (m : MachineMeter) :
    MachineMeter × Except Escape Unit :=
  Meter.buy_ink (p.gas_to_ink gas) m

/-- Modelled from the spec: checking gas sufficiency without charging (the
prover crate's `GasMeteredMachine::require_gas`, not under src; §4.1). On
failure the meter is left exhausted. -/
def Meter.require_gas (p : PricingParams) (gas : Nat) (m : MachineMeter) :
    MachineMeter × Except Escape Unit :=
  match m with
  | .Exhausted => (.Exhausted, .error .OutOfInk)
  | .Ready ink_left =>
    if ink_left < p.gas_to_ink gas then (.Exhausted, .error .OutOfInk)
    else (.Ready ink_left, .ok ())

/-- Modelled from the spec: the remaining gas of the replay dispatcher's
meter (the prover crate's `GasMeteredMachine::gas_left`, not under src):
fails when exhausted, otherwise converts the remaining ink via `ink_to_gas`. -/
def Meter.gas_left (p : PricingParams) (m : MachineMeter) : Except Escape Nat :=
  match m with
  | .Exhausted => .error .OutOfInk
  | .Ready ink_left => .ok (p.ink_to_gas ink_left)

/-- Pricing constants of the EVM cost schedule (`arbutil::evm` and
`arbutil::pricing`, external policy constants; spec §9 treats them as
configuration inputs, so they are parameters here). -/
structure EvmConsts where
  HOSTIO_INK : Nat
  PTR_INK : Nat
  EVM_API_INK : Nat
  SSTORE_SENTRY_GAS : Nat
  LOG_TOPIC_GAS : Nat
  LOG_DATA_GAS : Nat
  COPY_WORD_GAS : Nat
deriving DecidableEq, Repr

/-- Paying the copy cost of bytes moved across the EVM boundary
(`HostioInfo::pay_for_evm_copy`, stylus `env.rs` lines 139-143). -/
def HostioInfo.pay_for_evm_copy (c : EvmConsts) (p : PricingParams) (bytes : Nat)
    (m : MeterData) : MeterData × Except Escape Unit :=
  HostioInfo.buy_gas p (min (evm_words bytes * c.COPY_WORD_GAS) U64_MAX) m

/-- Modelled from the spec: the replay dispatcher's per-byte read charge
(the prover crate's `GasMeteredMachine::pay_for_read`, not under src). §4.4:
a copy cost proportional to the bytes moved, with the same word-granular
schedule as `pay_for_evm_copy`. -/
def Meter.pay_for_read (c : EvmConsts) (p : PricingParams) (bytes : Nat)
    (m : MachineMeter) : MachineMeter × Except Escape Unit :=
  Meter.buy_gas p (min (evm_words bytes * c.COPY_WORD_GAS) U64_MAX) m

/-- Modelled from the spec: the replay dispatcher's log charge (the prover
crate's `GasMeteredMachine::pay_for_evm_log`, not under src). §8: a log with
`topics` topics and `data_len` non-topic bytes costs
`(1 + topics) * LOG_TOPIC_GAS + data_len * LOG_DATA_GAS` gas. -/
def Meter.pay_for_evm_log (c : EvmConsts) (p : PricingParams) (topics data_len : Nat)
    (m : MachineMeter) : MachineMeter × Except Escape Unit :=
  Meter.buy_gas p ((1 + topics) * c.LOG_TOPIC_GAS + data_len * c.LOG_DATA_GAS) m

/-- One observable invocation of the EVM API Client, as recorded by the
host-function embeddings: the operation and the arguments handed to the
client. A host function that fails before delegation records no call. -/
inductive ApiCall where
  | set_bytes32 (key value : List Nat)
  | contract_call (contract input : List Nat) (gas : Nat) (value : Option (List Nat))
  | emit_log (data : List Nat) (topics : Nat)
deriving DecidableEq, Repr

/-- Response of the EVM API Client to a call-family operation: the length of
the returned data, the gas cost to charge, and the outcome kind of the
nested call. -/
structure CallResp where
  outs_len : Nat
  gas_cost : Nat
  status : UserOutcomeKind
deriving DecidableEq, Repr

/-- Mutable per-program cells of the native dispatcher that the claims
observe: the meter globals and the last-return-data-length cache. -/
structure EnvState where
  meter : MeterData
  return_data_len : Nat
deriving DecidableEq, Repr

/-- Mutable per-program cells of the replay dispatcher that the claims
observe: the machine meter and the last-return-data-length cache. -/
structure ProgState where
  meter : MachineMeter
  return_data_len : Nat
deriving DecidableEq, Repr

/-- Storage store on the native engine (`account_store_bytes32`, stylus
`host.rs` lines 65-73): charge the hostio overhead, require the SSTORE
sentry gas without charging it, read key and value from guest memory, store
through the EVM API Client, then charge the reported cost. `store_resp` is
the client's answer (the charge, or a recoverable error). -/
def account_store_bytes32 (c : EvmConsts) (p : PricingParams) (mem : List Nat)
    (key value : Nat) (store_resp : Except String Nat) (m0 : MeterData) :
    MeterData × List ApiCall × Except Escape Unit :=
  match WasmEnv.start p m0 with
  | (m1, .error e) => (m1, [], .error e)
  | (m1, .ok ()) =>
    match HostioInfo.require_gas p c.SSTORE_SENTRY_GAS m1 with
    | (m2, .error e) => (m2, [], .error e)
    | (m2, .ok ()) =>
      match HostioInfo.read_bytes32 mem key with
      | none => (m2, [], .error .Memory)
      | some k =>
        match HostioInfo.read_bytes32 mem value with
        | none => (m2, [], .error .Memory)
        | some v =>
          match store_resp with
          | .error msg => (m2, [.set_bytes32 k v], .error (.Internal msg))
          | .ok gas_cost =>
            match HostioInfo.buy_gas p gas_cost m2 with
            | (m3, .error e) => (m3, [.set_bytes32 k v], .error e)
            | (m3, .ok ()) => (m3, [.set_bytes32 k v], .ok ())

/-- Log emission on the native engine (`emit_log`, stylus `host.rs` lines
211-224): charge the hostio overhead, reject bad topic data up front, charge
the per-topic and per-byte log gas, read the payload, then forward to the
EVM API Client. `log_resp` is the client's answer. -/
def emit_log (c : EvmConsts) (p : PricingParams) (mem : List Nat)
    (data len topics : Nat) (log_resp : Except String Unit) (m0 : MeterData) :
    MeterData × List ApiCall × Except Escape Unit :=
  match WasmEnv.start p m0 with
  | (m1, .error e) => (m1, [], .error e)
  | (m1, .ok ()) =>
    if len < topics * 32 ∨ topics > 4 then
      (m1, [], .error (.Logical "bad topic data"))
    else
      match HostioInfo.buy_gas p ((1 + topics) * c.LOG_TOPIC_GAS) m1 with
      | (m2, .error e) => (m2, [], .error e)
      | (m2, .ok ()) =>
        match HostioInfo.buy_gas p ((len - topics * 32) * c.LOG_DATA_GAS) m2 with
        | (m3, .error e) => (m3, [], .error e)
        | (m3, .ok ()) =>
          match HostioInfo.read_slice mem data len with
          | none => (m3, [], .error .Memory)
          | some d =>
            match log_resp with
            | .error msg => (m3, [.emit_log d topics], .error (.Internal msg))
            | .ok () => (m3, [.emit_log d topics], .ok ())

/-- The up-front charges of the native engine's `call_contract` (stylus
`host.rs` lines 84-85): the hostio overhead followed by the calldata copy
cost. -/
def call_contract_prefix (c : EvmConsts) (p : PricingParams) (calldata_len : Nat)
    (m0 : MeterData) : MeterData × Except Escape Unit :=
  match WasmEnv.start p m0 with
  | (m1, .error e) => (m1, .error e)
  | (m1, .ok ()) => HostioInfo.pay_for_evm_copy c p calldata_len m1

/-- Contract call on the native engine (`call_contract`, stylus `host.rs`
lines 75-98): after the up-front charges, the caller-supplied ink is clamped
to the ink the program has left, converted to gas, and forwarded to the EVM
API Client together with the operands read from guest memory; the returned
data length is cached and written back, and the reported cost is charged.
`call` is the client's answer as a function of the forwarded gas. -/
def call_contract (c : EvmConsts) (p : PricingParams) (mem : List Nat)
    (contract calldata calldata_len value : Nat) (ink : Nat)
    (return_data_len : Nat) (call : Nat → CallResp) (st0 : EnvState) :
    EnvState × List ApiCall × Except Escape UserOutcomeKind :=
  match call_contract_prefix c p calldata_len st0.meter with
  | (m2, .error e) => ({ st0 with meter := m2 }, [], .error e)
  | (m2, .ok ()) =>
    let ink2 := min ink (HostioInfo.ink_left m2).ink
    let gas := p.ink_to_gas ink2
    match HostioInfo.read_bytes20 mem contract with
    | none => ({ st0 with meter := m2 }, [], .error .Memory)
    | some con =>
      match HostioInfo.read_slice mem calldata calldata_len with
      | none => ({ st0 with meter := m2 }, [], .error .Memory)
      | some input =>
        match HostioInfo.read_bytes32 mem value with
        | none => ({ st0 with meter := m2 }, [], .error .Memory)
        | some v =>
          let r := call gas
          let call_rec := ApiCall.contract_call con input gas (some v)
          let st1 : EnvState := { meter := m2, return_data_len := r.outs_len }
          if HostioInfo.write_u32_ok mem return_data_len then
            match HostioInfo.buy_gas p r.gas_cost m2 with
            | (m3, .error e) => ({ st1 with meter := m3 }, [call_rec], .error e)
            | (m3, .ok ()) => ({ st1 with meter := m3 }, [call_rec], .ok r.status)
          else (st1, [call_rec], .error .Memory)

/-- Storage store on the replay dispatcher (`UserHost::storage_store_bytes32`,
user-host `host.rs` lines 104-114): charge the fixed overhead ink, require
the SSTORE sentry gas without charging it, read key and value, store through
the EVM API Client, then charge the reported cost. The trait's error type is
rendered as `Escape` (out-of-ink, memory bounds, and report errors). -/
def UserHost.storage_store_bytes32 (c : EvmConsts) (p : PricingParams)
    (mem : List Nat) (key value : Nat) (store_resp : Except String Nat)
    (m0 : MachineMeter) : MachineMeter × List ApiCall × Except Escape Unit :=
  match Meter.buy_ink (c.HOSTIO_INK + 2 * c.PTR_INK + c.EVM_API_INK) m0 with
  | (m1, .error e) => (m1, [], .error e)
  | (m1, .ok ()) =>
    match Meter.require_gas p c.SSTORE_SENTRY_GAS m1 with
    | (m2, .error e) => (m2, [], .error e)
    | (m2, .ok ()) =>
      match HostioInfo.read_bytes32 mem key with
      | none => (m2, [], .error .Memory)
      | some k =>
        match HostioInfo.read_bytes32 mem value with
        | none => (m2, [], .error .Memory)
        | some v =>
          match store_resp with
          | .error msg => (m2, [.set_bytes32 k v], .error (.Internal msg))
          | .ok gas_cost =>
            match Meter.buy_gas p gas_cost m2 with
            | (m3, .error e) => (m3, [.set_bytes32 k v], .error e)
            | (m3, .ok ()) => (m3, [.set_bytes32 k v], .ok ())

/-- Log emission on the replay dispatcher (`UserHost::emit_log`, user-host
`host.rs` lines 321-333): charge the fixed overhead ink, reject bad topic
data, charge the read and log costs, read the payload, then forward to the
EVM API Client. -/
def UserHost.emit_log (c : EvmConsts) (p : PricingParams) (mem : List Nat)
    (data len topics : Nat) (log_resp : Except String Unit) (m0 : MachineMeter) :
    MachineMeter × List ApiCall × Except Escape Unit :=
  match Meter.buy_ink (c.HOSTIO_INK + c.EVM_API_INK) m0 with
  | (m1, .error e) => (m1, [], .error e)
  | (m1, .ok ()) =>
    if topics > 4 ∨ len < topics * 32 then
      (m1, [], .error (.Internal "bad topic data"))
    else
      match Meter.pay_for_read c p len m1 with
      | (m2, .error e) => (m2, [], .error e)
      | (m2, .ok ()) =>
        match Meter.pay_for_evm_log c p topics (len - topics * 32) m2 with
        | (m3, .error e) => (m3, [], .error e)
        | (m3, .ok ()) =>
          match HostioInfo.read_slice mem data len with
          | none => (m3, [], .error .Memory)
          | some d =>
            match log_resp with
            | .error msg => (m3, [.emit_log d topics], .error (.Internal msg))
            | .ok () => (m3, [.emit_log d topics], .ok ())

/-- The up-front charges of the replay dispatcher's `do_call` (user-host
`host.rs` lines 174-175): the fixed overhead ink followed by the calldata
read cost. -/
def UserHost.do_call_prefix (c : EvmConsts) (p : PricingParams)
    (calldata_len : Nat) (m0 : MachineMeter) : MachineMeter × Except Escape Unit :=
  match Meter.buy_ink (c.HOSTIO_INK + 3 * c.PTR_INK + c.EVM_API_INK) m0 with
  | (m1, .error e) => (m1, .error e)
  | (m1, .ok ()) => Meter.pay_for_read c p calldata_len m1

/-- Unified call forwarding on the replay dispatcher (`UserHost::do_call`,
user-host `host.rs` lines 160-204, shared by the plain, delegate, and static
call kinds): after the up-front charges, the caller-supplied gas is clamped
to the gas the program has left and forwarded to the EVM API Client together
with the operands read from guest memory; the reported cost is charged and
the returned data length is cached and written back. `value` is the optional
callvalue pointer (present only for the plain call kind); `call` is the
client's answer as a function of the forwarded gas. -/
def UserHost.do_call (c : EvmConsts) (p : PricingParams) (mem : List Nat)
    (contract calldata calldata_len : Nat) (value : Option Nat) (gas : Nat)
    (return_data_len : Nat) (call : Nat → CallResp) (st0 : ProgState) :
    ProgState × List ApiCall × Except Escape UserOutcomeKind :=
  match UserHost.do_call_prefix c p calldata_len st0.meter with
  | (m1, .error e) => ({ st0 with meter := m1 }, [], .error e)
  | (m1, .ok ()) =>
    match Meter.gas_left p m1 with
    | .error e => ({ st0 with meter := m1 }, [], .error e)
    | .ok left =>
      let gas2 := min gas left
      match HostioInfo.read_bytes20 mem contract with
      | none => ({ st0 with meter := m1 }, [], .error .Memory)
      | some con =>
        match HostioInfo.read_slice mem calldata calldata_len with
        | none => ({ st0 with meter := m1 }, [], .error .Memory)
        | some input =>
          match value.map (HostioInfo.read_bytes32 mem) with
          | some none => ({ st0 with meter := m1 }, [], .error .Memory)
          | vread =>
            let v := vread.bind id
            let r := call gas2
            let call_rec := ApiCall.contract_call con input gas2 v
            match Meter.buy_gas p r.gas_cost m1 with
            | (m2, .error e) =>
              ({ st0 with meter := m2 }, [call_rec], .error e)
            | (m2, .ok ()) =>
              let st1 : ProgState := { meter := m2, return_data_len := r.outs_len }
              if HostioInfo.write_u32_ok mem return_data_len then
                (st1, [call_rec], .ok r.status)
              else (st1, [call_rec], .error .Memory)

/-- Terminal outcome of a program run (`UserOutcome` in `arbutil::evm::user`,
listed in §4.6): success and revert carry the program's output, failure
carries descriptive error bytes, and the two exhaustion outcomes carry
nothing. A native `run_main` that returns `Err` is folded into `Failure`,
exactly as the adapters treat the two alternatives of their first match arm. -/
inductive UserOutcome where
  | Success (outs : List Nat)
  | Revert (outs : List Nat)
  | Failure (err : List Nat)
  | OutOfInk
  | OutOfStack
deriving DecidableEq, Repr

/-- The outcome kind of a `UserOutcome` (`From<&UserOutcome> for
UserOutcomeKind` in `arbutil`). -/
def UserOutcome.kind : UserOutcome → UserOutcomeKind
  | .Success _ => .Success
  | .Revert _ => .Revert
  | .Failure _ => .Failure
  | .OutOfInk => .OutOfInk
  | .OutOfStack => .OutOfStack

/-- Splitting a `UserOutcome` into kind and data (`UserOutcome::into_data`
in `arbutil`): the exhaustion outcomes carry no bytes. -/
def UserOutcome.into_data : UserOutcome → UserOutcomeKind × List Nat
  | .Success outs => (.Success, outs)
  | .Revert outs => (.Revert, outs)
  | .Failure err => (.Failure, err)
  | .OutOfInk => (.OutOfInk, [])
  | .OutOfStack => (.OutOfStack, [])

/-- Modelled from the spec: the result of running the instrumented module to
completion (the engines themselves — `NativeInstance::run_main`, the prover
`Machine` — are not under src). §4.6 and §5: execution is deterministic
given the module, calldata, configuration, and EVM API responses, so a
single run result feeds both adapters; it consists of the terminal outcome
and the final state of the instrumented meter. -/
structure RunResult where
  outcome : UserOutcome
  meter : MachineMeter
deriving DecidableEq, Repr

/-- A run result is coherent when the instrumented meter is exhausted
exactly on the out-of-ink outcome (§3: once exhausted the meter never
recovers within a run; the instrumentation traps the program the moment the
flag is set). -/
def RunResult.wf (r : RunResult) : Prop :=
  r.meter = .Exhausted ↔ r.outcome = .OutOfInk

/-- The status that the native engine reports (`stylus_call`, stylus
`lib.rs` lines 153-163): a failing run writes the error bytes to the output
and reports `Failure`; any other run is split by `into_data`. -/
def stylus_call_report (r : RunResult) : UserOutcomeKind × List Nat :=
  match r.outcome with
  | .Failure err => (.Failure, err)
  | o => o.into_data

/-- The native execution adapter (`stylus_call`, stylus `lib.rs` lines
153-169), as a function of the run result: reports the status and output
bytes, and writes back the remaining gas — zero ink when out of stack, the
instance's remaining ink otherwise, converted through `ink_to_gas`. -/
def stylus_call (p : PricingParams) (r : RunResult) :
    UserOutcomeKind × List Nat × Nat :=
  let (status, outs) := stylus_call_report r
  let ink_left : Nat :=
    match status with
    | .OutOfStack => 0
    | _ => r.meter.ink
  (status, outs, p.ink_to_gas ink_left)

/-- The remaining-ink computation of the jit adapter's worker (`exec_wasm`,
jit `user/evm_api.rs` lines 337-341): all ink is taken when out of stack,
otherwise the instance's remaining ink is read. -/
def exec_wasm_ink_left (r : RunResult) : Nat :=
  match r.outcome.kind with
  | .OutOfStack => 0
  | _ => r.meter.ink

/-- The jit execution adapter (`call_user_wasm`, jit `user/mod.rs` lines
92-110), as a function of the run result: reports the status and output
bytes exactly as the native adapter does, and writes back
`ink_to_gas(ink_left)` with the worker's remaining-ink computation. -/
def call_user_wasm (p : PricingParams) (r : RunResult) :
    UserOutcomeKind × List Nat × Nat :=
  let (status, outs) := stylus_call_report r
  (status, outs, p.ink_to_gas (exec_wasm_ink_left r))

/-- The tail of the replay execution adapter (`callUserWasmRustImpl`,
user-host `link.rs` lines 148-159), as a function of the entry point's
nominal status, the popped output bytes, and the instrumentation counters:
a nonzero ink status reports `OutOfInk` with zero ink and no output; an
exhausted stack reports `OutOfStack` with zero ink and no output; otherwise
the program's own status, output, and remaining ink are reported. The gas
write-back converts the reported ink through `ink_to_gas`. -/
def callUserWasmRustImpl (p : PricingParams) (status : UserOutcomeKind)
    (outs : List Nat) (ink_status stack_left ink_left : Nat) :
    UserOutcomeKind × List Nat × Nat :=
  if ink_status ≠ 0 then (.OutOfInk, [], p.ink_to_gas 0)
  else if stack_left = 0 then (.OutOfStack, [], p.ink_to_gas 0)
  else (status, outs, p.ink_to_gas ink_left)

/-- Modelled from the spec: the instrumentation ink-status counter produced
by a run (§4.6, the replay engine "inspects instrumentation-provided
counters"): set exactly when the run ran out of ink. -/
def RunResult.ink_status (r : RunResult) : Nat :=
  if r.outcome = .OutOfInk then 1 else 0

/-- Modelled from the spec: the instrumentation stack counter produced by a
run (§4.6): zero remaining stack exactly when the run ran out of stack. -/
def RunResult.stack_left (r : RunResult) : Nat :=
  if r.outcome = .OutOfStack then 0 else 1

/-- Modelled from the spec: the remaining-ink counter read by the replay
adapter (`program_ink_left`): the ink of the final meter. -/
def RunResult.ink_left (r : RunResult) : Nat :=
  r.meter.ink

/-- Modelled from the spec: the nominal status and output with which the
entry point returns to the replay adapter, before the instrumentation
override: the outcome's kind and bytes. -/
def RunResult.nominal (r : RunResult) : UserOutcomeKind × List Nat :=
  stylus_call_report r

/-- C2, counterexample: on a ready meter holding `n = 0` ink,
`HostioInfo::buy_ink(n+1) = buy_ink(1)` fails with `OutOfInk`, but the meter
globals are left untouched, so a subsequent `ink_left` read returns
`Ready(0)`, not `Exhausted`. -/
theorem buy_ink_failure_not_exhausted_counterexample :
    (HostioInfo.buy_ink 1 ⟨0, 0⟩).2 = .error .OutOfInk ∧
    HostioInfo.ink_left (HostioInfo.buy_ink 1 ⟨0, 0⟩).1 = .Ready 0 ∧
    HostioInfo.ink_left (HostioInfo.buy_ink 1 ⟨0, 0⟩).1 ≠ .Exhausted := by
  decide

/-- C2, amended: for every ink amount `n` (a `u64`), `buy_ink(n)` on a ready
meter with `ink_left = n` succeeds and leaves `ink_left = 0`; `buy_ink(n+1)`
on the same starting state fails with `OutOfInk` and leaves the meter
globals unchanged, so a subsequent `ink_left` read still returns `Ready(n)`. -/
theorem buy_ink_exact_and_insufficient (n : Nat) (_hn : n + 1 ≤ U64_MAX) :
    HostioInfo.buy_ink n ⟨n, 0⟩ = (⟨0, 0⟩, .ok ()) ∧
    HostioInfo.buy_ink (n + 1) ⟨n, 0⟩ = (⟨n, 0⟩, .error .OutOfInk) ∧
    HostioInfo.ink_left (HostioInfo.buy_ink (n + 1) ⟨n, 0⟩).1 = .Ready n := by
  refine ⟨?_, ?_, ?_⟩ <;>
    simp [HostioInfo.buy_ink, HostioInfo.ink_left, HostioInfo.set_ink]

/-- C2, witness: the amended statement at `n = 5`. -/
theorem buy_ink_exact_and_insufficient_witness :
    HostioInfo.buy_ink 5 ⟨5, 0⟩ = (⟨0, 0⟩, .ok ()) ∧
    HostioInfo.buy_ink 6 ⟨5, 0⟩ = (⟨5, 0⟩, .error .OutOfInk) ∧
    HostioInfo.ink_left (HostioInfo.buy_ink 6 ⟨5, 0⟩).1 = .Ready 5 :=
  buy_ink_exact_and_insufficient 5 (by decide)

/-- C3: converting gas to ink and back never creates gas — for every gas
value `g` and nonzero ink price, `ink_to_gas(gas_to_ink(g)) ≤ g`. The
multiplication saturates and the division rounds down, so both roundings
lose gas, never create it. -/
theorem ink_to_gas_gas_to_ink_le (p : PricingParams) (g : Nat)
    (hp : 0 < p.ink_price) (_hg : g ≤ U64_MAX) :
    p.ink_to_gas (p.gas_to_ink g) ≤ g := by
  unfold PricingParams.ink_to_gas PricingParams.gas_to_ink
  rcases le_or_lt (g * p.ink_price) U64_MAX with h | h
  · rw [min_eq_left h, Nat.mul_div_cancel g hp]
  · rw [min_eq_right h.le, Nat.div_le_iff_le_mul_add_pred hp, mul_comm]
    omega

/-- C3, witness: the round trip at `g = 7` with ink price `2`. -/
theorem ink_to_gas_gas_to_ink_le_witness :
    PricingParams.ink_to_gas ⟨2, 10⟩ (PricingParams.gas_to_ink ⟨2, 10⟩ 7) ≤ 7 :=
  ink_to_gas_gas_to_ink_le ⟨2, 10⟩ 7 (by decide) (by decide)

/-- C9: a `read_slice` request fails (with a memory-bounds error and no
bytes) exactly when `[ptr, ptr+len)` exceeds the linear memory region, and a
successful read returns exactly `len` bytes of the region — no partial read.
The embedding is a total function, so no input can make it panic. -/
theorem read_slice_bounds (mem : List Nat) (ptr len : Nat) :
    (HostioInfo.read_slice mem ptr len = none ↔ mem.length < ptr + len) ∧
    (∀ bs, HostioInfo.read_slice mem ptr len = some bs →
      bs.length = len ∧ bs = (mem.drop ptr).take len) := by
  constructor
  · unfold HostioInfo.read_slice
    split <;> simp <;> omega
  · intro bs hbs
    unfold HostioInfo.read_slice at hbs
    split at hbs
    · rename_i hle
      cases hbs
      refine ⟨?_, rfl⟩
      simp [List.length_take, List.length_drop]
      omega
    · cases hbs

/-- C9, witness: an out-of-bounds request on a 3-byte memory fails, and an
in-bounds request returns exactly the requested number of bytes. -/
theorem read_slice_bounds_witness :
    HostioInfo.read_slice [1, 2, 3] 2 2 = none ∧ ([2, 3] : List Nat).length = 2 :=
  ⟨(read_slice_bounds [1, 2, 3] 2 2).1.mpr (by decide),
   ((read_slice_bounds [1, 2, 3] 1 2).2 [2, 3] (by decide)).1⟩

/-- C8: in the replay adapter, the instrumentation counters take precedence
over the entry point's nominal status — a nonzero ink status reports
`OutOfInk` with zero ink left, an exhausted stack reports `OutOfStack` with
zero ink left, and only otherwise are the program's own status, output, and
remaining ink reported. -/
theorem replay_instrumentation_precedence (p : PricingParams)
    (status : UserOutcomeKind) (outs : List Nat) (is sl il : Nat) :
    (is ≠ 0 → callUserWasmRustImpl p status outs is sl il = (.OutOfInk, [], 0)) ∧
    (is = 0 → sl = 0 → callUserWasmRustImpl p status outs is sl il = (.OutOfStack, [], 0)) ∧
    (is = 0 → sl ≠ 0 →
      callUserWasmRustImpl p status outs is sl il = (status, outs, p.ink_to_gas il)) := by
  refine ⟨fun h1 => ?_, fun h1 h2 => ?_, fun h1 h2 => ?_⟩
  · simp [callUserWasmRustImpl, PricingParams.ink_to_gas, h1]
  · simp [callUserWasmRustImpl, PricingParams.ink_to_gas, h1, h2]
  · simp [callUserWasmRustImpl, h1, h2]

/-- C8, witness: the three precedence branches at concrete counters. -/
theorem replay_instrumentation_precedence_witness :
    callUserWasmRustImpl ⟨2, 10⟩ .Success [9] 1 1 5 = (.OutOfInk, [], 0) ∧
    callUserWasmRustImpl ⟨2, 10⟩ .Success [9] 0 0 5 = (.OutOfStack, [], 0) ∧
    callUserWasmRustImpl ⟨2, 10⟩ .Success [9] 0 1 5 =
      (.Success, [9], PricingParams.ink_to_gas ⟨2, 10⟩ 5) :=
  ⟨(replay_instrumentation_precedence ⟨2, 10⟩ .Success [9] 1 1 5).1 (by decide),
   (replay_instrumentation_precedence ⟨2, 10⟩ .Success [9] 0 0 5).2.1 rfl rfl,
   (replay_instrumentation_precedence ⟨2, 10⟩ .Success [9] 0 1 5).2.2 rfl (by decide)⟩

/-- C1: cross-engine determinism — given the same deterministic run result
(same module, calldata, configuration, and EVM API responses), the native
adapter `stylus_call` and the replay adapter `callUserWasmRustImpl` report
the same outcome kind, the same output bytes, and the same remaining gas. -/
theorem cross_engine_determinism (p : PricingParams) (r : RunResult) (h : r.wf) :
    stylus_call p r =
      callUserWasmRustImpl p r.nominal.1 r.nominal.2
        r.ink_status r.stack_left r.ink_left := by
  obtain ⟨o, m⟩ := r
  unfold RunResult.wf at h
  cases o <;>
    simp_all [stylus_call, stylus_call_report, callUserWasmRustImpl,
      RunResult.nominal, RunResult.ink_status, RunResult.stack_left,
      RunResult.ink_left, UserOutcome.into_data, MachineMeter.ink,
      PricingParams.ink_to_gas]

/-- C1, witness: both adapters at a successful run with 6 ink left. -/
theorem cross_engine_determinism_witness :
    stylus_call ⟨2, 10⟩ ⟨.Success [1, 2], .Ready 6⟩ =
      callUserWasmRustImpl ⟨2, 10⟩
        (RunResult.nominal ⟨.Success [1, 2], .Ready 6⟩).1
        (RunResult.nominal ⟨.Success [1, 2], .Ready 6⟩).2
        (RunResult.ink_status ⟨.Success [1, 2], .Ready 6⟩)
        (RunResult.stack_left ⟨.Success [1, 2], .Ready 6⟩)
        (RunResult.ink_left ⟨.Success [1, 2], .Ready 6⟩) :=
  cross_engine_determinism ⟨2, 10⟩ ⟨.Success [1, 2], .Ready 6⟩
    (by simp [RunResult.wf])

/-- C7: whenever an execution adapter's outcome is `OutOfStack`, the
remaining gas it reports is zero (ink fully confiscated); for every other
outcome kind, the instance's actual remaining ink is converted through
`ink_to_gas` and reported. This holds for the native adapter, the jit
adapter, and the replay adapter. -/
theorem out_of_stack_confiscation (p : PricingParams) (r : RunResult) (h : r.wf) :
    ((stylus_call p r).1 = .OutOfStack → (stylus_call p r).2.2 = 0) ∧
    ((stylus_call p r).1 ≠ .OutOfStack →
      (stylus_call p r).2.2 = p.ink_to_gas r.meter.ink) ∧
    ((call_user_wasm p r).1 = .OutOfStack → (call_user_wasm p r).2.2 = 0) ∧
    ((call_user_wasm p r).1 ≠ .OutOfStack →
      (call_user_wasm p r).2.2 = p.ink_to_gas r.meter.ink) ∧
    ((callUserWasmRustImpl p r.nominal.1 r.nominal.2
        r.ink_status r.stack_left r.ink_left).1 = .OutOfStack →
      (callUserWasmRustImpl p r.nominal.1 r.nominal.2
        r.ink_status r.stack_left r.ink_left).2.2 = 0) ∧
    ((callUserWasmRustImpl p r.nominal.1 r.nominal.2
        r.ink_status r.stack_left r.ink_left).1 ≠ .OutOfStack →
      (callUserWasmRustImpl p r.nominal.1 r.nominal.2
        r.ink_status r.stack_left r.ink_left).2.2 = p.ink_to_gas r.meter.ink) := by
  obtain ⟨o, m⟩ := r
  unfold RunResult.wf at h
  cases o <;>
    simp_all [stylus_call, stylus_call_report, call_user_wasm,
      exec_wasm_ink_left, callUserWasmRustImpl, RunResult.nominal,
      RunResult.ink_status, RunResult.stack_left, RunResult.ink_left,
      UserOutcome.into_data, UserOutcome.kind, MachineMeter.ink,
      PricingParams.ink_to_gas]

/-- C7, witness: all three adapters report zero gas on an out-of-stack run. -/
theorem out_of_stack_confiscation_witness :
    (stylus_call ⟨2, 10⟩ ⟨.OutOfStack, .Ready 9⟩).2.2 = 0 ∧
    (call_user_wasm ⟨2, 10⟩ ⟨.OutOfStack, .Ready 9⟩).2.2 = 0 ∧
    (callUserWasmRustImpl ⟨2, 10⟩
      (RunResult.nominal ⟨.OutOfStack, .Ready 9⟩).1
      (RunResult.nominal ⟨.OutOfStack, .Ready 9⟩).2
      (RunResult.ink_status ⟨.OutOfStack, .Ready 9⟩)
      (RunResult.stack_left ⟨.OutOfStack, .Ready 9⟩)
      (RunResult.ink_left ⟨.OutOfStack, .Ready 9⟩)).2.2 = 0 :=
  ⟨(out_of_stack_confiscation ⟨2, 10⟩ ⟨.OutOfStack, .Ready 9⟩
      (by simp [RunResult.wf])).1 (by decide),
   (out_of_stack_confiscation ⟨2, 10⟩ ⟨.OutOfStack, .Ready 9⟩
      (by simp [RunResult.wf])).2.2.1 (by decide),
   (out_of_stack_confiscation ⟨2, 10⟩ ⟨.OutOfStack, .Ready 9⟩
      (by simp [RunResult.wf])).2.2.2.2.1 (by decide)⟩

/-- C6: a storage store invoked with remaining ink below the
`gas_to_ink`-equivalent of the SSTORE sentry threshold fails with `OutOfInk`
and never invokes the EVM API Client's store operation, on both the native
dispatcher (`account_store_bytes32`) and the replay dispatcher
(`UserHost::storage_store_bytes32`). -/
theorem sstore_sentry_short_circuit (c : EvmConsts) (p : PricingParams)
    (mem : List Nat) (key value : Nat) (store_resp : Except String Nat) (n : Nat)
    (h : n < p.gas_to_ink c.SSTORE_SENTRY_GAS) :
    ((account_store_bytes32 c p mem key value store_resp ⟨n, 0⟩).2.2 =
        .error .OutOfInk ∧
      (account_store_bytes32 c p mem key value store_resp ⟨n, 0⟩).2.1 = []) ∧
    ((UserHost.storage_store_bytes32 c p mem key value store_resp (.Ready n)).2.2 =
        .error .OutOfInk ∧
      (UserHost.storage_store_bytes32 c p mem key value store_resp (.Ready n)).2.1 = []) := by
  constructor
  · by_cases h1 : n < p.hostio_ink
    · simp [account_store_bytes32, WasmEnv.start, HostioInfo.buy_ink,
        HostioInfo.ink_left, h1]
    · have h2 : n - p.hostio_ink < p.gas_to_ink c.SSTORE_SENTRY_GAS := by omega
      simp [account_store_bytes32, WasmEnv.start, HostioInfo.buy_ink,
        HostioInfo.ink_left, HostioInfo.set_ink, HostioInfo.require_gas, h1, h2]
  · by_cases h1 : n < c.HOSTIO_INK + 2 * c.PTR_INK + c.EVM_API_INK
    · simp [UserHost.storage_store_bytes32, Meter.buy_ink, h1]
    · have h2 : n - (c.HOSTIO_INK + 2 * c.PTR_INK + c.EVM_API_INK) <
          p.gas_to_ink c.SSTORE_SENTRY_GAS := by omega
      simp [UserHost.storage_store_bytes32, Meter.buy_ink, Meter.require_gas,
        h1, h2]

/-- C6, witness: both dispatchers at 50 ink with a sentry threshold worth
200 ink. -/
theorem sstore_sentry_short_circuit_witness :
    (account_store_bytes32 ⟨1, 1, 1, 100, 0, 0, 0⟩ ⟨2, 1⟩ [] 0 0 (.ok 0)
        ⟨50, 0⟩).2.2 = .error .OutOfInk ∧
    (UserHost.storage_store_bytes32 ⟨1, 1, 1, 100, 0, 0, 0⟩ ⟨2, 1⟩ [] 0 0 (.ok 0)
        (.Ready 50)).2.1 = [] :=
  ⟨(sstore_sentry_short_circuit ⟨1, 1, 1, 100, 0, 0, 0⟩ ⟨2, 1⟩ [] 0 0 (.ok 0) 50
      (by decide)).1.1,
   (sstore_sentry_short_circuit ⟨1, 1, 1, 100, 0, 0, 0⟩ ⟨2, 1⟩ [] 0 0 (.ok 0) 50
      (by decide)).2.2⟩

/-- Converting zero gas yields zero ink. -/
theorem gas_to_ink_zero (p : PricingParams) : p.gas_to_ink 0 = 0 := by
  simp [PricingParams.gas_to_ink]

/-- C5: `emit_log` with 64 data bytes and 2 topics charges exactly the fixed
hostio overhead plus `(1+2)*LOG_TOPIC_GAS + (64-64)*LOG_DATA_GAS` gas and
then forwards the log to the EVM API Client; with 5 topics it fails up front
with `bad topic data` for every data length, charging nothing beyond the
fixed overhead and contacting no one. -/
theorem emit_log_charges (c : EvmConsts) (p : PricingParams) (mem : List Nat)
    (data : Nat) (log_resp : Except String Unit) (n : Nat)
    (h1 : p.hostio_ink + p.gas_to_ink (3 * c.LOG_TOPIC_GAS) ≤ n)
    (h2 : data + 64 ≤ mem.length) :
    emit_log c p mem data 64 2 (.ok ()) ⟨n, 0⟩ =
      (⟨n - p.hostio_ink - p.gas_to_ink ((1 + 2) * c.LOG_TOPIC_GAS) -
          p.gas_to_ink ((64 - 2 * 32) * c.LOG_DATA_GAS), 0⟩,
        [.emit_log ((mem.drop data).take 64) 2], .ok ()) ∧
    (∀ len, p.hostio_ink ≤ n →
      emit_log c p mem data len 5 log_resp ⟨n, 0⟩ =
        (⟨n - p.hostio_ink, 0⟩, [], .error (.Logical "bad topic data"))) := by
  constructor
  · have hh : ¬ (n < p.hostio_ink) := by omega
    have hg : ¬ (n - p.hostio_ink < p.gas_to_ink (3 * c.LOG_TOPIC_GAS)) := by
      omega
    simp [emit_log, WasmEnv.start, HostioInfo.buy_ink, HostioInfo.buy_gas,
      HostioInfo.ink_left, HostioInfo.set_ink, HostioInfo.read_slice,
      gas_to_ink_zero, hh, hg, h2]
  · intro len hn
    have hh : ¬ (n < p.hostio_ink) := by omega
    simp [emit_log, WasmEnv.start, HostioInfo.buy_ink, HostioInfo.ink_left,
      HostioInfo.set_ink, hh]

/-- C5, witness: the exact charge at 375 gas per topic, price 1, overhead
10, and a 64-byte memory, plus the up-front rejection at 5 topics. -/
theorem emit_log_charges_witness :
    emit_log ⟨1, 1, 1, 100, 375, 8, 3⟩ ⟨1, 10⟩ (List.replicate 64 7) 0 64 2
        (.ok ()) ⟨10000, 0⟩ =
      (⟨10000 - 10 - PricingParams.gas_to_ink ⟨1, 10⟩ ((1 + 2) * 375) -
          PricingParams.gas_to_ink ⟨1, 10⟩ ((64 - 2 * 32) * 8), 0⟩,
        [.emit_log (((List.replicate 64 7).drop 0).take 64) 2], .ok ()) ∧
    emit_log ⟨1, 1, 1, 100, 375, 8, 3⟩ ⟨1, 10⟩ (List.replicate 64 7) 0 32 5
        (.ok ()) ⟨10000, 0⟩ =
      (⟨10000 - 10, 0⟩, [], .error (.Logical "bad topic data")) :=
  ⟨(emit_log_charges ⟨1, 1, 1, 100, 375, 8, 3⟩ ⟨1, 10⟩ (List.replicate 64 7) 0
      (.ok ()) 10000 (by decide) (by decide)).1,
   (emit_log_charges ⟨1, 1, 1, 100, 375, 8, 3⟩ ⟨1, 10⟩ (List.replicate 64 7) 0
      (.ok ()) 10000 (by decide) (by decide)).2 32 (by decide)⟩

/-- C10: on both dispatchers, `emit_log` rejects any invocation whose data
length is smaller than `topics * 32` with a `bad topic data` error before
charging any log gas, reading guest memory, or contacting the EVM API
Client — only the fixed overhead has been charged. -/
theorem emit_log_rejects_short_data (c : EvmConsts) (p : PricingParams)
    (mem : List Nat) (data len topics : Nat) (log_resp : Except String Unit)
    (n : Nat) (hlen : len < topics * 32) :
    (p.hostio_ink ≤ n →
      emit_log c p mem data len topics log_resp ⟨n, 0⟩ =
        (⟨n - p.hostio_ink, 0⟩, [], .error (.Logical "bad topic data"))) ∧
    (c.HOSTIO_INK + c.EVM_API_INK ≤ n →
      UserHost.emit_log c p mem data len topics log_resp (.Ready n) =
        (.Ready (n - (c.HOSTIO_INK + c.EVM_API_INK)), [],
          .error (.Internal "bad topic data"))) := by
  constructor
  · intro hn
    have hh : ¬ (n < p.hostio_ink) := by omega
    simp [emit_log, WasmEnv.start, HostioInfo.buy_ink, HostioInfo.ink_left,
      HostioInfo.set_ink, hh, hlen]
  · intro hn
    have hh : ¬ (n < c.HOSTIO_INK + c.EVM_API_INK) := by omega
    simp [UserHost.emit_log, Meter.buy_ink, hh, hlen]

/-- C10, witness: both dispatchers reject 10 data bytes with 2 topics. -/
theorem emit_log_rejects_short_data_witness :
    emit_log ⟨3, 0, 2, 0, 0, 0, 0⟩ ⟨1, 5⟩ [] 0 10 2 (.ok ()) ⟨100, 0⟩ =
      (⟨100 - 5, 0⟩, [], .error (.Logical "bad topic data")) ∧
    UserHost.emit_log ⟨3, 0, 2, 0, 0, 0, 0⟩ ⟨1, 5⟩ [] 0 10 2 (.ok ())
        (.Ready 100) =
      (.Ready (100 - (3 + 2)), [], .error (.Internal "bad topic data")) :=
  ⟨(emit_log_rejects_short_data ⟨3, 0, 2, 0, 0, 0, 0⟩ ⟨1, 5⟩ [] 0 10 2 (.ok ())
      100 (by decide)).1 (by decide),
   (emit_log_rejects_short_data ⟨3, 0, 2, 0, 0, 0, 0⟩ ⟨1, 5⟩ [] 0 10 2 (.ok ())
      100 (by decide)).2 (by decide)⟩

/-- C4: in every call-forwarding invocation, the gas forwarded to the nested
call never exceeds what the calling program has left at the time of the
call: on the native dispatcher the caller-supplied ink is clamped by `min`
with the remaining ink before conversion, and on the replay dispatcher the
caller-supplied gas is clamped by `min` with the remaining gas, in both
cases before the EVM API Client is invoked. -/
theorem call_forwarding_clamped :
    (∀ (c : EvmConsts) (p : PricingParams) (mem : List Nat)
      (contract calldata calldata_len value ink return_data_len : Nat)
      (call : Nat → CallResp) (st0 : EnvState) (m2 : MeterData),
      call_contract_prefix c p calldata_len st0.meter = (m2, .ok ()) →
      ∀ a ∈ (call_contract c p mem contract calldata calldata_len value ink
        return_data_len call st0).2.1, ∀ con input g v,
        a = .contract_call con input g v →
          g = p.ink_to_gas (min ink (HostioInfo.ink_left m2).ink) ∧
          g ≤ p.ink_to_gas (HostioInfo.ink_left m2).ink) ∧
    (∀ (c : EvmConsts) (p : PricingParams) (mem : List Nat)
      (contract calldata calldata_len : Nat) (value : Option Nat)
      (gas return_data_len : Nat) (call : Nat → CallResp) (st0 : ProgState)
      (m1 : MachineMeter) (left : Nat),
      UserHost.do_call_prefix c p calldata_len st0.meter = (m1, .ok ()) →
      Meter.gas_left p m1 = .ok left →
      ∀ a ∈ (UserHost.do_call c p mem contract calldata calldata_len value gas
        return_data_len call st0).2.1, ∀ con input g v,
        a = .contract_call con input g v → g = min gas left ∧ g ≤ left) := by
  constructor
  · intro c p mem contract calldata calldata_len value ink return_data_len
      call st0 m2 hpre a ha con input g v hav
    subst hav
    simp only [call_contract, hpre] at ha
    iterate 6 (all_goals try split at ha)
    all_goals simp_all
    all_goals exact Nat.div_le_div_right (min_le_right _ _)
  · intro c p mem contract calldata calldata_len value gas return_data_len
      call st0 m1 left hpre hleft a ha con input g v hav
    subst hav
    simp only [UserHost.do_call, hpre, hleft] at ha
    iterate 6 (all_goals try split at ha)
    all_goals simp_all

/-- C4, witness: a concrete plain call on each dispatcher with 50 gas
requested out of 100 available forwards exactly 50, within the remaining
balance. -/
theorem call_forwarding_clamped_witness :
    (50 = PricingParams.ink_to_gas ⟨1, 0⟩
        (min 50 (HostioInfo.ink_left ⟨100, 0⟩).ink) ∧
      50 ≤ PricingParams.ink_to_gas ⟨1, 0⟩ (HostioInfo.ink_left ⟨100, 0⟩).ink) ∧
    (50 = min 50 100 ∧ 50 ≤ 100) :=
  ⟨call_forwarding_clamped.1 ⟨0, 0, 0, 0, 0, 0, 0⟩ ⟨1, 0⟩ (List.replicate 32 0)
      0 0 0 0 50 0 (fun _ => (⟨0, 0, .Success⟩ : CallResp)) ⟨⟨100, 0⟩, 0⟩
      ⟨100, 0⟩ (by decide)
      (ApiCall.contract_call (List.replicate 20 0) [] 50
        (some (List.replicate 32 0))) (by decide)
      (List.replicate 20 0) [] 50 (some (List.replicate 32 0)) rfl,
   call_forwarding_clamped.2 ⟨0, 0, 0, 0, 0, 0, 0⟩ ⟨1, 0⟩ (List.replicate 32 0)
      0 0 0 none 50 0 (fun _ => (⟨0, 0, .Success⟩ : CallResp)) ⟨.Ready 100, 0⟩
      (.Ready 100) 100 (by decide) (by decide)
      (ApiCall.contract_call (List.replicate 20 0) [] 50 none) (by decide)
      (List.replicate 20 0) [] 50 none rfl⟩

end Stylus
